import Mathlib

/-!
Shallow embedding of the cache / blacklist core of the randobites
repository (src/services/restaurantService.ts, sharedCacheService.ts,
blacklistService.ts), together with theorems settling the frozen claims
about it.

Conventions of the embedding:
* JavaScript numbers used as coordinates are modelled as rationals (ℚ);
  timestamps and durations (milliseconds) as ℕ.
* `Math.round` is modelled as `jsRound x = ⌊x + 1/2⌋`, which is the exact
  semantics of JavaScript `Math.round` (round half toward +∞).
* Asynchronous reads (AsyncStorage, Supabase selects) are modelled by
  passing the value the read would produce as an explicit argument
  (`Option` for a read that can be null / miss); writes are modelled by
  returning the written value.
* `Restaurant` is projected to the fields the verified operations
  actually inspect (`id` for dedup/filtering, `name`/`cuisine` as payload
  witnesses that records with equal ids can still differ); the remaining
  enrichment fields of src/types/restaurant.ts are carried by no verified
  operation and are omitted.
* `Math.random()` draws are modelled by a stream `rand : ℕ → ℕ`; the draw
  used at loop index `i` of the Fisher–Yates shuffle is `rand i`
  (modelling `Math.floor(Math.random() * (i + 1))`, which lies in
  `[0, i]`; `listSwap` is total and leaves the list unchanged on an
  out-of-range index, exactly as the JavaScript swap can never observe).
-/

/-- Projection of the `Restaurant` interface (src/types/restaurant.ts) to
the fields inspected by the cache and blacklist layer. -/
structure Restaurant where
  id : String
  name : String
  cuisine : String
deriving DecidableEq

/-- The `BlacklistedRestaurant` interface of src/services/blacklistService.ts
(lines 6-11): a local blacklist entry has an id, a display name, a report
timestamp and a reason — and no report counter field. -/
structure BlacklistedRestaurant where
  id : String
  name : String
  reportedAt : Nat
  reason : String
deriving DecidableEq

/-- `BlacklistService.getBlacklist` (blacklistService.ts lines 132-155):
the shared entries followed by the local entries whose id does not occur
among the shared ids. -/
def getBlacklist (shared localBl : List BlacklistedRestaurant) :
    List BlacklistedRestaurant :=
  let sharedIds := shared.map (·.id)
  shared ++ localBl.filter (fun item => !decide (item.id ∈ sharedIds))

/-- `BlacklistService.filterBlacklistedRestaurants` (blacklistService.ts
lines 245-267): keep the items whose id is not in the blacklist; the
function is generic over any record type exposing an id, modelled by the
projection `idOf`.  The `Set` of ids in the source is modelled by the
membership test on the list of ids. -/
def filterBlacklistedRestaurants {T : Type} (idOf : T → String)
    (blacklist : List BlacklistedRestaurant) (restaurants : List T) : List T :=
  let blacklistedIds := blacklist.map (·.id)
  restaurants.filter (fun r => !decide (idOf r ∈ blacklistedIds))

/-- `BlacklistService.reportToLocalStorage` (blacklistService.ts lines
104-127): if the id is already present the stored list is returned
untouched; otherwise a new entry is appended.  `now` models `Date.now()`;
the returned list models the value written back to AsyncStorage. -/
def reportToLocalStorage (blacklist : List BlacklistedRestaurant)
    (restaurantId restaurantName reason : String) (now : Nat) :
    List BlacklistedRestaurant :=
  if blacklist.any (fun item => item.id == restaurantId) then blacklist
  else blacklist ++ [⟨restaurantId, restaurantName, now, reason⟩]

/-- `SHARED_CACHE_DURATION` (sharedCacheService.ts line 6): 2 hours in
milliseconds. -/
def SHARED_CACHE_DURATION : Nat := 2 * 60 * 60 * 1000

/-- `CACHE_DURATION` of the current restaurantService.ts (line 467):
4 hours in milliseconds. -/
def CACHE_DURATION : Nat := 4 * 60 * 60 * 1000

/-- JavaScript `Math.round`: round half toward positive infinity. -/
def jsRound (x : ℚ) : ℤ := ⌊x + 1/2⌋

/-- Result record of `SharedCacheService.getCacheGrid`. -/
structure CacheGrid where
  gridLat : ℚ
  gridLng : ℚ
  normalizedRadius : ℚ
deriving DecidableEq

/-- `SharedCacheService.getCacheGrid` (sharedCacheService.ts lines 25-40):
snap the coordinate to a 0.01° grid and normalize the radius to the tier
list 3000 / 5000 / 8000 / 10000. -/
def getCacheGrid (latitude longitude : ℚ) (radiusInMeters : ℚ) : CacheGrid :=
  let gridSize : ℚ := 1/100
  let gridLat : ℚ := (jsRound (latitude / gridSize) : ℚ) * gridSize
  let gridLng : ℚ := (jsRound (longitude / gridSize) : ℚ) * gridSize
  let normalizedRadius : ℚ :=
    if radiusInMeters ≤ 3000 then 3000
    else if radiusInMeters ≤ 5000 then 5000
    else if radiusInMeters ≤ 8000 then 8000
    else 10000
  ⟨gridLat, gridLng, normalizedRadius⟩

/-- Modelled from the spec: the radius tier of §4.1 — the smallest element
of the fixed ascending tier list 3000 / 5000 / 8000 / 10000 that is ≥ the
requested radius, defaulting to the largest tier if the request exceeds
all of them.  Used only to compare the source's `normalizedRadius` against
the spec's wording. -/
def specRadiusTier (r : ℚ) : ℚ :=
  (([3000, 5000, 8000, 10000] : List ℚ).find? (fun t => decide (r ≤ t))).getD 10000

/-- The part of a `SharedCacheRecord` (sharedCacheService.ts lines 8-18)
that the verified operations read: the stored restaurant list, the
contributor counter and the `updated_at` timestamp (milliseconds). -/
structure SharedCacheRecord where
  restaurants : List Restaurant
  contributors : Nat
  updatedAt : Nat
deriving DecidableEq

/-- `SharedCacheService.getSharedCache` (sharedCacheService.ts lines
45-94).  `bucket` is the row the Supabase select would return (none for a
missing row).  The first component is the returned value (null on miss or
expiry); the second records whether `cleanupExpiredCache` deleted the row
(the TTL-triggered delete of lines 81-86). -/
def getSharedCacheRead (bucket : Option SharedCacheRecord) (now : Nat) :
    Option (List Restaurant) × Bool :=
  match bucket with
  | none => (none, false)
  | some cacheRecord =>
    if now - cacheRecord.updatedAt > SHARED_CACHE_DURATION then (none, true)
    else (some cacheRecord.restaurants, false)

/-- The merge step of `SharedCacheService.setSharedCache`
(sharedCacheService.ts lines 113-125): `contributors` starts at 1 and is
incremented exactly once when `existingData` is non-null and non-empty,
so the stored counter is 2 in that case and 1 otherwise; the merged list
keeps every existing record and appends the contributed records whose id
is not already present. -/
def setSharedCacheCombine (existingData : Option (List Restaurant))
    (restaurants : List Restaurant) : List Restaurant × Nat :=
  match existingData with
  | some existing =>
    if 0 < existing.length then
      let existingIds := existing.map (·.id)
      let newRestaurants := restaurants.filter (fun r => !decide (r.id ∈ existingIds))
      (existing ++ newRestaurants, 1 + 1)
    else (restaurants, 1)
  | none => (restaurants, 1)

/-- `SharedCacheService.setSharedCache` (sharedCacheService.ts lines
99-154): the merge base is obtained through `getSharedCache` itself
(line 113), i.e. through the TTL-enforcing, expiry-deleting read; the
upserted row carries the merged list, the recomputed contributor counter
and `updated_at = now`. -/
def setSharedCache (bucket : Option SharedCacheRecord) (now : Nat)
    (restaurants : List Restaurant) : SharedCacheRecord :=
  let existingData := (getSharedCacheRead bucket now).1
  let merged := setSharedCacheCombine existingData restaurants
  ⟨merged.1, merged.2, now⟩

/-- A run of `n+1` successive non-concurrent `setSharedCache` writes of the
same contribution `P` to the same (initially absent) bucket, all at
timestamp 0 so no write ever sees an expired bucket. -/
def iterWrites (P : List Restaurant) : Nat → SharedCacheRecord
  | 0 => setSharedCache none 0 P
  | n + 1 => setSharedCache (some (iterWrites P n)) 0 P

/-- `RestaurantService.getCachedRestaurants` (restaurantService.ts lines
around 1245-1280 of the current version): a stored entry is returned only
while its age is within `CACHE_DURATION`; `entry` is the parsed
AsyncStorage value (timestamp, restaurants). -/
def getCachedRestaurants (entry : Option (Nat × List Restaurant)) (now : Nat) :
    Option (List Restaurant) :=
  match entry with
  | none => none
  | some (timestamp, restaurants) =>
    if now - timestamp > CACHE_DURATION then none else some restaurants

/-- The in-place swap `[a[i], a[j]] = [a[j], a[i]]` of the Fisher–Yates
loop, as a total function on lists: out-of-range indices leave the list
unchanged (the source loop only ever uses in-range indices). -/
def listSwap {α : Type} (l : List α) (i j : Nat) : List α :=
  match l[i]?, l[j]? with
  | some a, some b => (l.set i b).set j a
  | _, _ => l

/-- `RestaurantService.shuffleArray` (restaurantService.ts lines
1402-1409): Fisher–Yates over a fresh copy of the input; the loop index
`i` runs from `length - 1` down to `1` and swaps position `i` with the
drawn position `rand i` (modelling `Math.floor(Math.random() * (i + 1))`). -/
def shuffleArray {α : Type} (rand : Nat → Nat) (array : List α) : List α :=
  let n := array.length
  (List.range (n - 1)).foldl
    (fun shuffled k =>
      let i := n - 1 - k
      listSwap shuffled i (rand i))
    array

/-- The fixed mock dataset of `getMockRestaurantsWithRandomOrder`
(restaurantService.ts, current version), projected to the embedded
`Restaurant` fields. -/
def mockRestaurants : List Restaurant :=
  [ ⟨"1", "Giuseppe\x27s Italian Kitchen", "Italian"⟩,
    ⟨"2", "Sakura Sushi & Ramen", "Japanese"⟩,
    ⟨"3", "Taco Libre", "Mexican"⟩,
    ⟨"4", "The Burger Joint", "American"⟩,
    ⟨"5", "Green Garden Cafe", "Vegetarian"⟩,
    ⟨"6", "Le Petit Bistro", "French"⟩,
    ⟨"7", "Spice Route", "Indian"⟩,
    ⟨"8", "Dragon Palace", "Chinese"⟩ ]

/-- `RestaurantService.getMockRestaurantsWithRandomOrder`: the fixed mock
list, shuffled. -/
def getMockRestaurantsWithRandomOrder (rand : Nat → Nat) : List Restaurant :=
  shuffleArray rand mockRestaurants

/-- The environment of one `fetchNearbyRestaurants` invocation: the values
its awaited reads produce and its configuration.  `localCache` is the
value `getCachedRestaurants` returns (null on miss/expiry), `sharedCache`
the value `SharedCacheService.getSharedCache` returns, `hasApiKey` whether
`GEOAPIFY_API_KEY` is configured, `providerRestaurants` the list
`fetchFromGeoapify` returns (its own catch turns provider errors into an
empty list), `blacklist` the list `BlacklistService.getBlacklist` sees. -/
structure FetchEnv where
  forceRefresh : Bool
  localCache : Option (List Restaurant)
  sharedCache : Option (List Restaurant)
  hasApiKey : Bool
  providerRestaurants : List Restaurant
  blacklist : List BlacklistedRestaurant
  rand : Nat → Nat

/-- Lines 575-620 of `RestaurantService.fetchNearbyRestaurants`: the
provider / fallback chain entered after the cache checks.  Note line 577:
when no API key is configured the shuffled mock data is returned WITHOUT
passing through `filterBlacklistedRestaurants`, unlike every other
terminal path of the chain. -/
def fetchCore (env : FetchEnv) : List Restaurant :=
  if !env.hasApiKey then
    getMockRestaurantsWithRandomOrder env.rand
  else if 0 < env.providerRestaurants.length then
    shuffleArray env.rand
      (filterBlacklistedRestaurants (·.id) env.blacklist env.providerRestaurants)
  else if env.forceRefresh then
    match env.localCache with
    | some cachedRestaurants =>
      shuffleArray env.rand
        (filterBlacklistedRestaurants (·.id) env.blacklist cachedRestaurants)
    | none =>
      filterBlacklistedRestaurants (·.id) env.blacklist
        (getMockRestaurantsWithRandomOrder env.rand)
  else
    filterBlacklistedRestaurants (·.id) env.blacklist
      (getMockRestaurantsWithRandomOrder env.rand)

/-- `RestaurantService.fetchNearbyRestaurants` (restaurantService.ts lines
541-621), as the list it returns.  The write-through effects (caching the
filtered lists locally / in the shared cache) do not influence the
returned list and are not modelled here.  The local-cache test on line 555
is JavaScript truthiness on a nullable array, so a present-but-empty entry
still counts as a hit; the shared-cache test on line 566 additionally
requires a non-empty list. -/
def fetchNearbyRestaurants (env : FetchEnv) : List Restaurant :=
  if !env.forceRefresh then
    match env.localCache with
    | some localCachedRestaurants =>
      shuffleArray env.rand
        (filterBlacklistedRestaurants (·.id) env.blacklist localCachedRestaurants)
    | none =>
      match env.sharedCache with
      | some sharedCachedRestaurants =>
        if 0 < sharedCachedRestaurants.length then
          shuffleArray env.rand
            (filterBlacklistedRestaurants (·.id) env.blacklist sharedCachedRestaurants)
        else fetchCore env
      | none => fetchCore env
  else fetchCore env

/-- Modelled from the spec (amended form of the permutation claim): the
candidate list the provider / fallback chain (`fetchCore`) randomizes —
the blacklist-filtered provider / cache / mock list on the filtering
branches, and the raw mock list on the no-API-key branch, which the source
returns without filtering. -/
def fetchCoreCandidates (env : FetchEnv) : List Restaurant :=
  if !env.hasApiKey then mockRestaurants
  else if 0 < env.providerRestaurants.length then
    filterBlacklistedRestaurants (·.id) env.blacklist env.providerRestaurants
  else if env.forceRefresh then
    match env.localCache with
    | some cachedRestaurants =>
      filterBlacklistedRestaurants (·.id) env.blacklist cachedRestaurants
    | none => filterBlacklistedRestaurants (·.id) env.blacklist mockRestaurants
  else filterBlacklistedRestaurants (·.id) env.blacklist mockRestaurants

/-- Modelled from the spec (amended form of the permutation claim): the
candidate list each branch of `fetchNearbyRestaurants` randomizes — the
blacklist-filtered cache / provider / mock list on the filtering branches,
and the raw mock list on the no-API-key branch, which the source returns
without filtering. -/
def fetchCandidates (env : FetchEnv) : List Restaurant :=
  if !env.forceRefresh then
    match env.localCache with
    | some localCachedRestaurants =>
      filterBlacklistedRestaurants (·.id) env.blacklist localCachedRestaurants
    | none =>
      match env.sharedCache with
      | some sharedCachedRestaurants =>
        if 0 < sharedCachedRestaurants.length then
          filterBlacklistedRestaurants (·.id) env.blacklist sharedCachedRestaurants
        else fetchCoreCandidates env
      | none => fetchCoreCandidates env
  else fetchCoreCandidates env

/-- The environment of the concrete no-API-key invocation used to exhibit
the unfiltered mock path of `fetchNearbyRestaurants`: both caches miss, no
API key is configured, and the blacklist contains the id of a mock
restaurant. -/
def noKeyEnv : FetchEnv where
  forceRefresh := false
  localCache := none
  sharedCache := none
  hasApiKey := false
  providerRestaurants := []
  blacklist := [⟨"1", "Giuseppe\x27s Italian Kitchen", 0, "Restaurant does not exist"⟩]
  rand := fun _ => 0

/-- A second no-API-key environment, whose blacklist contains the id of a
different mock restaurant. -/
def noKeyEnv2 : FetchEnv where
  forceRefresh := false
  localCache := none
  sharedCache := none
  hasApiKey := false
  providerRestaurants := []
  blacklist := [⟨"2", "Sakura Sushi & Ramen", 0, "Restaurant does not exist"⟩]
  rand := fun _ => 0

/-!
Helper lemmas shared by several claims.
-/

lemma jsRound_near (x : ℚ) (n : ℤ) (h : |x - (n : ℚ) * (1/100)| < 1/200) :
    jsRound (x / (1/100)) = n := by
  rw [abs_lt] at h
  have hx : x / (1/100) = 100 * x := by ring
  rw [jsRound, hx, Int.floor_eq_iff]
  constructor
  · nlinarith [h.1, h.2]
  · nlinarith [h.1, h.2]

lemma normalizedRadius_eq_specTier (lat lng r : ℚ) :
    (getCacheGrid lat lng r).normalizedRadius = specRadiusTier r := by
  rw [getCacheGrid, specRadiusTier]
  by_cases h1 : r ≤ 3000
  · simp [List.find?, h1]
  · by_cases h2 : r ≤ 5000
    · simp [List.find?, h1, h2]
    · by_cases h3 : r ≤ 8000
      · simp [List.find?, h1, h2, h3]
      · by_cases h4 : r ≤ 10000
        · simp [List.find?, h1, h2, h3, h4]
        · simp [List.find?, h1, h2, h3, h4]

lemma cons_set_perm {α : Type} (x : α) :
    ∀ (l : List α) (j : Nat) (b : α), l[j]? = some b →
      List.Perm (b :: l.set j x) (x :: l) := by
  intro l
  induction l with
  | nil => intro j b hb; simp at hb
  | cons c t ih =>
    intro j b hb
    cases j with
    | zero =>
      simp at hb
      subst hb
      exact List.Perm.swap x c t
    | succ j' =>
      simp at hb
      have h1 : List.Perm (b :: c :: t.set j' x) (c :: b :: t.set j' x) :=
        List.Perm.swap c b _
      have h2 : List.Perm (c :: b :: t.set j' x) (c :: x :: t) :=
        List.Perm.cons c (ih j' b hb)
      have h3 : List.Perm (c :: x :: t) (x :: c :: t) := List.Perm.swap x c t
      simpa using h1.trans (h2.trans h3)

lemma set_set_perm {α : Type} :
    ∀ (l : List α) (i j : Nat) (a b : α), l[i]? = some a → l[j]? = some b →
      List.Perm ((l.set i b).set j a) l := by
  intro l
  induction l with
  | nil => intro i j a b hi hj; simp at hi
  | cons c t ih =>
    intro i j a b hi hj
    cases i with
    | zero =>
      simp at hi
      subst hi
      cases j with
      | zero =>
        simp at hj
        subst hj
        simp
      | succ m =>
        simp at hj
        simpa using cons_set_perm c t m b hj
    | succ k =>
      simp at hi
      cases j with
      | zero =>
        simp at hj
        subst hj
        simpa using cons_set_perm c t k a hi
      | succ m =>
        simp at hj
        simpa using List.Perm.cons c (ih k m a b hi hj)

lemma listSwap_perm {α : Type} (l : List α) (i j : Nat) :
    List.Perm (listSwap l i j) l := by
  unfold listSwap
  cases hi : l[i]? with
  | none => simp
  | some a =>
    cases hj : l[j]? with
    | none => simp
    | some b => exact set_set_perm l i j a b hi hj

lemma foldl_listSwap_perm {α : Type} (F G : Nat → Nat) :
    ∀ (ks : List Nat) (acc : List α),
      List.Perm (ks.foldl (fun s k => listSwap s (F k) (G k)) acc) acc := by
  intro ks
  induction ks with
  | nil => intro acc; simp
  | cons k ks ih =>
    intro acc
    simp only [List.foldl_cons]
    exact (ih _).trans (listSwap_perm acc (F k) (G k))

lemma shuffleArray_perm {α : Type} (rand : Nat → Nat) (l : List α) :
    List.Perm (shuffleArray rand l) l := by
  unfold shuffleArray
  exact foldl_listSwap_perm (fun k => l.length - 1 - k)
    (fun k => rand (l.length - 1 - k)) (List.range (l.length - 1)) l

lemma combine_absorb (M P : List Restaurant)
    (h : ∀ r ∈ P, r.id ∈ M.map (·.id)) :
    (setSharedCacheCombine (some M) P).1 = M := by
  have hfil : P.filter (fun r => !decide (r.id ∈ M.map (·.id))) = [] := by
    rw [List.filter_eq_nil_iff]
    intro r hr
    simp [h r hr]
  rw [setSharedCacheCombine]
  by_cases hM : 0 < M.length
  · simp only [hM, if_true, hfil, List.append_nil]
  · have hM0 : M = [] := by
      cases M with
      | nil => rfl
      | cons a t => simp at hM
    subst hM0
    have hP : P = [] := by
      cases P with
      | nil => rfl
      | cons a t => exact absurd (h a (by simp)) (by simp)
    simp [hP]

lemma mem_ids_combine (B P : List Restaurant) (r : Restaurant) (hr : r ∈ P) :
    r.id ∈ ((setSharedCacheCombine (some B) P).1).map (·.id) := by
  rw [setSharedCacheCombine]
  by_cases hB : 0 < B.length
  · simp only [hB, if_true]
    by_cases hid : r.id ∈ B.map (·.id)
    · obtain ⟨x, hx, hxid⟩ := List.mem_map.mp hid
      exact List.mem_map.mpr ⟨x, List.mem_append_left _ hx, hxid⟩
    · refine List.mem_map.mpr ⟨r, List.mem_append_right _ ?_, rfl⟩
      refine List.mem_filter.mpr ⟨hr, ?_⟩
      simpa using hid
  · simp only [hB, if_false]
    exact List.mem_map.mpr ⟨r, hr, rfl⟩

lemma iterWrites_invariant (P : List Restaurant) (hP : P ≠ []) :
    ∀ n, (iterWrites P n).restaurants ≠ [] ∧ (iterWrites P n).updatedAt = 0 := by
  intro n
  induction n with
  | zero =>
    constructor
    · simpa [iterWrites, setSharedCache, getSharedCacheRead, setSharedCacheCombine] using hP
    · rfl
  | succ n ih =>
    obtain ⟨hne, hupd⟩ := ih
    have hread : (getSharedCacheRead (some (iterWrites P n)) 0).1 =
        some (iterWrites P n).restaurants := by
      rw [getSharedCacheRead]
      simp [hupd, SHARED_CACHE_DURATION]
    constructor
    · rw [iterWrites, setSharedCache, hread, setSharedCacheCombine]
      have hlen : 0 < (iterWrites P n).restaurants.length :=
        List.length_pos.mpr hne
      simp only [hlen, if_true]
      simp [hne]
    · rfl

lemma gridLat_four_thousandths : (getCacheGrid (4/1000) 0 5000).gridLat = 0 := by
  rw [getCacheGrid]
  have h : jsRound ((4/1000 : ℚ) / (1/100)) = 0 := by
    rw [jsRound, Int.floor_eq_iff]
    norm_num
  rw [h]
  norm_num

lemma gridLat_six_thousandths : (getCacheGrid (6/1000) 0 5000).gridLat = 1/100 := by
  rw [getCacheGrid]
  have h : jsRound ((6/1000 : ℚ) / (1/100)) = 1 := by
    rw [jsRound, Int.floor_eq_iff]
    norm_num
  rw [h]
  norm_num

/-!
Claim theorems.
-/

/-- C1: the spec requires every terminal path of
`fetchNearbyRestaurants` to pass through the blacklist filter exactly
once, but the no-API-key path (restaurantService.ts line 577) returns the
shuffled mock data without any filtering: with both caches missing, no API
key and the blacklist containing mock id "1", the returned list still
contains id "1", and one application of the filter would have removed
it. -/
theorem noApiKeyPath_returns_unfiltered_mock :
    fetchNearbyRestaurants noKeyEnv = getMockRestaurantsWithRandomOrder noKeyEnv.rand ∧
    "1" ∈ (fetchNearbyRestaurants noKeyEnv).map (·.id) ∧
    "1" ∈ noKeyEnv.blacklist.map (·.id) ∧
    "1" ∉ (filterBlacklistedRestaurants (·.id) noKeyEnv.blacklist
        (fetchNearbyRestaurants noKeyEnv)).map (·.id) :=
  ⟨rfl, by decide, by decide, by decide⟩

/-- C2 counterexample: the merge of `setSharedCache` is not right-biased —
when the existing bucket and the contributed list share id "2", the stored
record for id "2" is the existing one, and the incoming record is absent
from the stored list. -/
theorem merge_not_rightBiased_cex :
    (setSharedCacheCombine (some [⟨"2", "Old Name", "Old Cuisine"⟩])
        [⟨"2", "New Name", "New Cuisine"⟩]).1 = [⟨"2", "Old Name", "Old Cuisine"⟩] ∧
    (⟨"2", "New Name", "New Cuisine"⟩ : Restaurant) ∉
      (setSharedCacheCombine (some [⟨"2", "Old Name", "Old Cuisine"⟩])
        [⟨"2", "New Name", "New Cuisine"⟩]).1 :=
  ⟨by decide, by decide⟩

/-- C2 amended: the stored merged list is the union by id of the existing
bucket B and the contribution P, and the merge is left-biased — every
existing record of B is kept unchanged, and a record of P enters the
stored list only when its id is absent from B. -/
theorem merge_union_leftBiased (B P : List Restaurant) :
    (∀ s : String, s ∈ ((setSharedCacheCombine (some B) P).1).map (·.id) ↔
        s ∈ B.map (·.id) ∨ s ∈ P.map (·.id)) ∧
    (∀ r : Restaurant, r ∈ B → r ∈ (setSharedCacheCombine (some B) P).1) ∧
    (∀ r : Restaurant, r ∈ (setSharedCacheCombine (some B) P).1 →
        r ∈ B ∨ (r ∈ P ∧ r.id ∉ B.map (·.id))) := by
  rw [setSharedCacheCombine]
  by_cases hB : 0 < B.length
  · simp only [hB, if_true]
    refine ⟨?_, ?_, ?_⟩
    · intro s
      constructor
      · intro hs
        obtain ⟨x, hx, hxid⟩ := List.mem_map.mp hs
        rcases List.mem_append.mp hx with hxB | hxF
        · exact Or.inl (List.mem_map.mpr ⟨x, hxB, hxid⟩)
        · exact Or.inr (List.mem_map.mpr ⟨x, (List.mem_filter.mp hxF).1, hxid⟩)
      · intro hs
        rcases hs with hs | hs
        · obtain ⟨x, hx, hxid⟩ := List.mem_map.mp hs
          exact List.mem_map.mpr ⟨x, List.mem_append_left _ hx, hxid⟩
        · obtain ⟨x, hx, hxid⟩ := List.mem_map.mp hs
          by_cases hid : x.id ∈ B.map (·.id)
          · obtain ⟨y, hy, hyid⟩ := List.mem_map.mp hid
            exact List.mem_map.mpr ⟨y, List.mem_append_left _ hy, hxid ▸ hyid⟩
          · refine List.mem_map.mpr ⟨x, List.mem_append_right _ ?_, hxid⟩
            refine List.mem_filter.mpr ⟨hx, ?_⟩
            simpa using hid
    · intro r hr
      exact List.mem_append_left _ hr
    · intro r hr
      rcases List.mem_append.mp hr with hrB | hrF
      · exact Or.inl hrB
      · obtain ⟨hrP, hrid⟩ := List.mem_filter.mp hrF
        refine Or.inr ⟨hrP, ?_⟩
        simpa using hrid
  · simp only [hB, if_false]
    have hB0 : B = [] := by
      cases B with
      | nil => rfl
      | cons a t => simp at hB
    subst hB0
    refine ⟨?_, ?_, ?_⟩
    · intro s; simp
    · intro r hr; simp at hr
    · intro r hr
      exact Or.inr ⟨hr, by simp⟩

/-- C2 witness: the amended merge theorem evaluated at a concrete bucket
and contribution — the existing record with id "2" survives the merge, and
id "3" from the contribution enters the union. -/
theorem merge_union_leftBiased_witness :
    (⟨"2", "Old Name", "Old Cuisine"⟩ : Restaurant) ∈
      (setSharedCacheCombine (some [⟨"2", "Old Name", "Old Cuisine"⟩])
        [⟨"2", "New Name", "New Cuisine"⟩, ⟨"3", "Third Place", "Thai"⟩]).1 ∧
    "3" ∈ ((setSharedCacheCombine (some [⟨"2", "Old Name", "Old Cuisine"⟩])
        [⟨"2", "New Name", "New Cuisine"⟩, ⟨"3", "Third Place", "Thai"⟩]).1).map (·.id) :=
  ⟨(merge_union_leftBiased [⟨"2", "Old Name", "Old Cuisine"⟩]
      [⟨"2", "New Name", "New Cuisine"⟩, ⟨"3", "Third Place", "Thai"⟩]).2.1 _ (by decide),
   ((merge_union_leftBiased [⟨"2", "Old Name", "Old Cuisine"⟩]
      [⟨"2", "New Name", "New Cuisine"⟩, ⟨"3", "Third Place", "Thai"⟩]).1 "3").mpr
     (Or.inr (by decide))⟩

/-- C3 counterexample: the stored contributor count does not equal the
existing bucket's count plus one — with an existing valid bucket whose
counter is 5, a write stores the counter 2, not 6. -/
theorem contributors_not_incremented_cex :
    (setSharedCache (some ⟨[⟨"a", "Alpha Diner", "c"⟩], 5, 0⟩) 0
        [⟨"b", "Beta Grill", "c"⟩]).contributors = 2 ∧
    (2 : Nat) ≠ 5 + 1 :=
  ⟨by decide, by decide⟩

/-- C3 amended: `setSharedCache` stores the contributor counter 1 when no
valid bucket was found, and the constant 2 when a TTL-valid non-empty
bucket was found (the read used for merging discards the stored count);
consequently, after any n ≥ 2 successive writes of a non-empty list the
counter is 2, not n. -/
theorem contributors_resets_to_two :
    (∀ (now : Nat) (P : List Restaurant),
        (setSharedCache none now P).contributors = 1) ∧
    (∀ (cacheRecord : SharedCacheRecord) (now : Nat) (P : List Restaurant),
        now - cacheRecord.updatedAt ≤ SHARED_CACHE_DURATION →
        0 < cacheRecord.restaurants.length →
        (setSharedCache (some cacheRecord) now P).contributors = 2) ∧
    (∀ (P : List Restaurant) (n : Nat), P ≠ [] →
        (iterWrites P (n + 1)).contributors = 2) := by
  refine ⟨?_, ?_, ?_⟩
  · intro now P; rfl
  · intro cacheRecord now P hage hlen
    have hread : (getSharedCacheRead (some cacheRecord) now).1 =
        some cacheRecord.restaurants := by
      rw [getSharedCacheRead]
      rw [if_neg (by omega)]
    rw [setSharedCache, hread, setSharedCacheCombine]
    simp [hlen]
  · intro P n hP
    obtain ⟨hne, hupd⟩ := iterWrites_invariant P hP n
    have hread : (getSharedCacheRead (some (iterWrites P n)) 0).1 =
        some (iterWrites P n).restaurants := by
      rw [getSharedCacheRead]
      simp [hupd, SHARED_CACHE_DURATION]
    rw [iterWrites, setSharedCache, hread, setSharedCacheCombine]
    simp [List.length_pos.mpr hne]

/-- C3 witness: the amended counter theorem evaluated concretely — a write
over a valid bucket with stored count 7 stores 2, and the fourth
successive write of a one-element list still stores 2. -/
theorem contributors_resets_to_two_witness :
    (setSharedCache (some ⟨[⟨"a", "Alpha Diner", "c"⟩], 7, 0⟩) 5 []).contributors = 2 ∧
    (iterWrites [⟨"a", "Alpha Diner", "c"⟩] 4).contributors = 2 :=
  ⟨contributors_resets_to_two.2.1 ⟨[⟨"a", "Alpha Diner", "c"⟩], 7, 0⟩ 5 []
      (by decide) (by decide),
   contributors_resets_to_two.2.2 [⟨"a", "Alpha Diner", "c"⟩] 3 (by decide)⟩

/-- C4 counterexample: the read `setSharedCache` performs is the
TTL-enforcing read of `getSharedCache`: a bucket one millisecond past the
shared TTL is not used as merge base (its restaurants are dropped from the
upserted row) and the read deletes it. -/
theorem writer_read_deletes_expired_cex :
    (setSharedCache (some ⟨[⟨"old", "Old Bistro", "French"⟩], 3, 0⟩)
        (SHARED_CACHE_DURATION + 1) [⟨"new", "New Cafe", "Cafe"⟩]).restaurants =
      [⟨"new", "New Cafe", "Cafe"⟩] ∧
    (⟨"old", "Old Bistro", "French"⟩ : Restaurant) ∉
      (setSharedCache (some ⟨[⟨"old", "Old Bistro", "French"⟩], 3, 0⟩)
        (SHARED_CACHE_DURATION + 1) [⟨"new", "New Cafe", "Cafe"⟩]).restaurants ∧
    (getSharedCacheRead (some ⟨[⟨"old", "Old Bistro", "French"⟩], 3, 0⟩)
        (SHARED_CACHE_DURATION + 1)).2 = true :=
  ⟨by decide, by decide, by decide⟩

/-- C4 amended: for every bucket older than the shared TTL, a subsequent
`setSharedCache` treats it as absent — the merge base is empty, so the
stored list is exactly the contribution, the counter restarts at 1, and
the TTL-triggered deletion fires during the writer's read. -/
theorem writer_read_applies_ttl (cacheRecord : SharedCacheRecord) (now : Nat)
    (P : List Restaurant) (h : now - cacheRecord.updatedAt > SHARED_CACHE_DURATION) :
    (setSharedCache (some cacheRecord) now P).restaurants = P ∧
    (setSharedCache (some cacheRecord) now P).contributors = 1 ∧
    (getSharedCacheRead (some cacheRecord) now).2 = true := by
  have hread : getSharedCacheRead (some cacheRecord) now = (none, true) := by
    rw [getSharedCacheRead, if_pos h]
  rw [setSharedCache, hread]
  exact ⟨rfl, rfl, rfl⟩

/-- C4 witness: the amended TTL theorem evaluated at a concrete expired
bucket. -/
theorem writer_read_applies_ttl_witness :
    (setSharedCache (some ⟨[⟨"old", "Old Bistro", "French"⟩], 3, 0⟩)
        (SHARED_CACHE_DURATION + 2) [⟨"new", "New Cafe", "Cafe"⟩]).restaurants =
      [⟨"new", "New Cafe", "Cafe"⟩] ∧
    (setSharedCache (some ⟨[⟨"old", "Old Bistro", "French"⟩], 3, 0⟩)
        (SHARED_CACHE_DURATION + 2) [⟨"new", "New Cafe", "Cafe"⟩]).contributors = 1 ∧
    (getSharedCacheRead (some ⟨[⟨"old", "Old Bistro", "French"⟩], 3, 0⟩)
        (SHARED_CACHE_DURATION + 2)).2 = true :=
  writer_read_applies_ttl ⟨[⟨"old", "Old Bistro", "French"⟩], 3, 0⟩
    (SHARED_CACHE_DURATION + 2) [⟨"new", "New Cafe", "Cafe"⟩] (by decide)

/-- C5 counterexample: the shared cache TTL is not greater than the local
cache TTL — SHARED_CACHE_DURATION (2 h) does not exceed CACHE_DURATION
(4 h). -/
theorem shared_ttl_not_longer_cex : ¬ (SHARED_CACHE_DURATION > CACHE_DURATION) := by
  decide

/-- C5 amended: the shared cache tier's TTL is strictly SHORTER than the
local cache tier's TTL: SHARED_CACHE_DURATION (2 hours) is less than
CACHE_DURATION (4 hours). -/
theorem shared_ttl_shorter_than_local : SHARED_CACHE_DURATION < CACHE_DURATION := by
  decide

/-- C6 counterexample: quantization is not stable for pairs of coordinates
merely within half a grid step (0.005°) of EACH OTHER — latitudes 0.004
and 0.006 differ by 0.002 ≤ 0.005, yet they round to different grid rows
(0 and 0.01), so the spatial keys differ. -/
theorem grid_quantization_pairwise_cex :
    |(4/1000 : ℚ) - 6/1000| ≤ 5/1000 ∧ |(0 : ℚ) - 0| ≤ 5/1000 ∧
      getCacheGrid (4/1000) 0 5000 ≠ getCacheGrid (6/1000) 0 5000 := by
  refine ⟨by rw [abs_le]; constructor <;> norm_num, by norm_num, fun h => ?_⟩
  have hlat := congrArg CacheGrid.gridLat h
  rw [gridLat_four_thousandths, gridLat_six_thousandths] at hlat
  norm_num at hlat

/-- C6 amended: for all pairs of coordinates strictly within half a grid
step (0.005° per axis) of the SAME grid-cell center and equal requested
radius, the spatial key produced by `getCacheGrid` is identical; and for
all requested radii that map to the same tier of the ascending list
3000/5000/8000/10000 (smallest tier ≥ the request, largest tier
otherwise), the normalized radius is identical. -/
theorem grid_quantization_stability :
    (∀ (n m : ℤ) (lat₁ lng₁ lat₂ lng₂ r : ℚ),
        |lat₁ - (n : ℚ) * (1/100)| < 1/200 → |lat₂ - (n : ℚ) * (1/100)| < 1/200 →
        |lng₁ - (m : ℚ) * (1/100)| < 1/200 → |lng₂ - (m : ℚ) * (1/100)| < 1/200 →
        getCacheGrid lat₁ lng₁ r = getCacheGrid lat₂ lng₂ r) ∧
    (∀ (lat lng r₁ r₂ : ℚ), specRadiusTier r₁ = specRadiusTier r₂ →
        (getCacheGrid lat lng r₁).normalizedRadius =
          (getCacheGrid lat lng r₂).normalizedRadius) := by
  constructor
  · intro n m lat₁ lng₁ lat₂ lng₂ r h1 h2 h3 h4
    rw [getCacheGrid, getCacheGrid]
    simp only [CacheGrid.mk.injEq]
    rw [jsRound_near lat₁ n h1, jsRound_near lat₂ n h2,
        jsRound_near lng₁ m h3, jsRound_near lng₂ m h4]
    exact ⟨rfl, rfl, trivial⟩
  · intro lat lng r₁ r₂ h
    rw [normalizedRadius_eq_specTier, normalizedRadius_eq_specTier, h]

/-- C6 witness: the amended stability theorem evaluated concretely — two
latitudes both within 0.005 of grid center 0 share a key, and radii 4000
and 4500 share the 5000 tier and hence the normalized radius. -/
theorem grid_quantization_stability_witness :
    getCacheGrid (1/1000) 0 4000 = getCacheGrid (2/1000) 0 4000 ∧
    (getCacheGrid 0 0 4000).normalizedRadius =
      (getCacheGrid 0 0 4500).normalizedRadius :=
  ⟨grid_quantization_stability.1 0 0 (1/1000) 0 (2/1000) 0 4000
      (by rw [abs_lt]; constructor <;> norm_num)
      (by rw [abs_lt]; constructor <;> norm_num)
      (by rw [abs_lt]; constructor <;> norm_num)
      (by rw [abs_lt]; constructor <;> norm_num),
   grid_quantization_stability.2 0 0 4000 4500
      (by norm_num [specRadiusTier, List.find?])⟩

/-- C7: the shared-cache merge is idempotent on the restaurant list —
merging the same contribution P into a bucket twice stores exactly the
list that merging it once stores (the contributor counter is the only
component that can differ). -/
theorem merge_idempotent_on_place_set (B : Option (List Restaurant))
    (P : List Restaurant) :
    (setSharedCacheCombine (some (setSharedCacheCombine B P).1) P).1 =
      (setSharedCacheCombine B P).1 := by
  apply combine_absorb
  intro r hr
  match B with
  | none =>
    simp only [setSharedCacheCombine]
    exact List.mem_map.mpr ⟨r, hr, rfl⟩
  | some ex => exact mem_ids_combine ex P r hr

/-- C8: `filterBlacklistedRestaurants` keeps exactly the items whose id is
not blacklisted, preserving relative order (the result is a sublist of the
input); with an empty blacklist the input is returned unchanged; and on
ids [A, B, C] with B blacklisted it returns [A, C] in that order. -/
theorem filterBlacklisted_exact_and_order_preserving :
    (∀ (T : Type) (idOf : T → String) (blacklist : List BlacklistedRestaurant)
        (restaurants : List T),
        (filterBlacklistedRestaurants idOf blacklist restaurants).Sublist restaurants ∧
        ∀ x : T, x ∈ filterBlacklistedRestaurants idOf blacklist restaurants ↔
          x ∈ restaurants ∧ idOf x ∉ blacklist.map (·.id)) ∧
    (∀ (T : Type) (idOf : T → String) (restaurants : List T),
        filterBlacklistedRestaurants idOf [] restaurants = restaurants) ∧
    filterBlacklistedRestaurants (·.id) [⟨"B", "Bad Place", 0, "gone"⟩]
        [⟨"A", "Alpha", "x"⟩, ⟨"B", "Bad Place", "x"⟩, ⟨"C", "Gamma", "x"⟩] =
      [(⟨"A", "Alpha", "x"⟩ : Restaurant), ⟨"C", "Gamma", "x"⟩] := by
  refine ⟨?_, ?_, by decide⟩
  · intro T idOf blacklist restaurants
    constructor
    · exact List.filter_sublist _
    · intro x
      rw [filterBlacklistedRestaurants]
      simp [List.mem_filter]
  · intro T idOf restaurants
    rw [filterBlacklistedRestaurants]
    simp

/-- C8 witness: the filter characterization applied at a concrete input —
the non-blacklisted record with id "A" is in the filtered output. -/
theorem filterBlacklisted_exact_and_order_preserving_witness :
    (⟨"A", "Alpha", "x"⟩ : Restaurant) ∈
      filterBlacklistedRestaurants (·.id) [⟨"B", "Bad Place", 0, "gone"⟩]
        [⟨"A", "Alpha", "x"⟩, ⟨"B", "Bad Place", "x"⟩] :=
  ((filterBlacklisted_exact_and_order_preserving.1 Restaurant (·.id)
      [⟨"B", "Bad Place", 0, "gone"⟩]
      [⟨"A", "Alpha", "x"⟩, ⟨"B", "Bad Place", "x"⟩]).2
    ⟨"A", "Alpha", "x"⟩).mpr ⟨by decide, by decide⟩

/-- C9 counterexample: not every list returned by `fetchNearbyRestaurants`
is a permutation of the blacklist-filtered candidate list — on the
no-API-key path with mock id "2" blacklisted, the returned list has 8
elements while the filtered candidates have 7, so no permutation
relates them. -/
theorem fetch_not_perm_of_filtered_cex :
    ¬ List.Perm (fetchNearbyRestaurants noKeyEnv2)
        (filterBlacklistedRestaurants (·.id) noKeyEnv2.blacklist
          (getMockRestaurantsWithRandomOrder noKeyEnv2.rand)) := by
  decide

/-- C9 amended: `shuffleArray` returns a list with exactly the same
elements (same multiset, same length) as its input — in this pure
embedding the input is unchanged by construction — and every list returned
by `fetchNearbyRestaurants` is a permutation of its branch's candidate
list: the blacklist-filtered candidates on every path except the
no-API-key path, where it is the unfiltered mock list. -/
theorem fetch_returns_permutation_of_candidates :
    (∀ (α : Type) (rand : Nat → Nat) (l : List α),
        List.Perm (shuffleArray rand l) l) ∧
    (∀ env : FetchEnv,
        List.Perm (fetchNearbyRestaurants env) (fetchCandidates env)) := by
  constructor
  · intro α rand l
    exact shuffleArray_perm rand l
  · intro env
    have hcore : List.Perm (fetchCore env) (fetchCoreCandidates env) := by
      rw [fetchCore, fetchCoreCandidates]
      by_cases hk : env.hasApiKey
      · simp only [hk, Bool.not_true, if_false]
        by_cases hp : 0 < env.providerRestaurants.length
        · simp only [hp, if_true]
          exact shuffleArray_perm _ _
        · simp only [hp, if_false]
          by_cases hf : env.forceRefresh
          · simp only [hf, if_true]
            cases env.localCache with
            | some cached => exact shuffleArray_perm _ _
            | none =>
              rw [filterBlacklistedRestaurants, filterBlacklistedRestaurants]
              exact List.Perm.filter _ (shuffleArray_perm _ _)
          · simp only [hf, if_false]
            rw [filterBlacklistedRestaurants, filterBlacklistedRestaurants]
            exact List.Perm.filter _ (shuffleArray_perm _ _)
      · simp only [Bool.not_eq_true] at hk
        simp only [hk, Bool.not_false, if_true]
        exact shuffleArray_perm _ _
    rw [fetchNearbyRestaurants, fetchCandidates]
    by_cases hf : env.forceRefresh
    · simp only [hf, Bool.not_true, if_false]
      exact hcore
    · simp only [hf, Bool.not_false, if_true]
      cases env.localCache with
      | some localCached => exact shuffleArray_perm _ _
      | none =>
        cases env.sharedCache with
        | some sharedCached =>
          by_cases hs : 0 < sharedCached.length
          · simp only [hs, if_true]
            exact shuffleArray_perm _ _
          · simp only [hs, if_false]
            exact hcore
        | none => exact hcore

/-- C10: a repeat report handled by the local fallback tier leaves the
stored local blacklist entirely unchanged (local entries carry no report
counter to increment and the timestamp is not refreshed); only a
first-time report of an id appends a new entry. -/
theorem repeat_local_report_leaves_blacklist_unchanged :
    (∀ (blacklist : List BlacklistedRestaurant) (rid rname reason : String) (now : Nat),
        blacklist.any (fun item => item.id == rid) = true →
        reportToLocalStorage blacklist rid rname reason now = blacklist) ∧
    (∀ (blacklist : List BlacklistedRestaurant) (rid rname reason : String) (now : Nat),
        blacklist.any (fun item => item.id == rid) = false →
        reportToLocalStorage blacklist rid rname reason now =
          blacklist ++ [⟨rid, rname, now, reason⟩]) := by
  constructor
  · intro blacklist rid rname reason now h
    rw [reportToLocalStorage, if_pos h]
  · intro blacklist rid rname reason now h
    rw [reportToLocalStorage, if_neg (by simp [h])]

/-- C10 witness: the report theorem applied at a concrete stored blacklist
— re-reporting the present id "X" changes nothing (not even the
timestamp), while reporting the fresh id "Y" appends one entry. -/
theorem repeat_local_report_leaves_blacklist_unchanged_witness :
    reportToLocalStorage [⟨"X", "Xavier Diner", 5, "gone"⟩] "X" "Xavier Diner" "dup" 9 =
      [⟨"X", "Xavier Diner", 5, "gone"⟩] ∧
    reportToLocalStorage [⟨"X", "Xavier Diner", 5, "gone"⟩] "Y" "Yard House" "gone" 9 =
      [⟨"X", "Xavier Diner", 5, "gone"⟩] ++ [⟨"Y", "Yard House", 9, "gone"⟩] :=
  ⟨repeat_local_report_leaves_blacklist_unchanged.1
      [⟨"X", "Xavier Diner", 5, "gone"⟩] "X" "Xavier Diner" "dup" 9 (by decide),
   repeat_local_report_leaves_blacklist_unchanged.2
      [⟨"X", "Xavier Diner", 5, "gone"⟩] "Y" "Yard House" "gone" 9 (by decide)⟩
